import Mathlib

/-!
Shallow embedding of the mirrorfs repository (ttacon/mirrorfs): a FUSE
filesystem that mirrors a real directory tree and dispatches named hook
events around every operation.

The embedding models the Go standard-library filesystem calls the nodes
delegate to (`os.Stat`, `os.OpenFile`, `os.Remove`, `os.Mkdir`,
`ioutil.ReadDir`, `ioutil.ReadFile`, `File.WriteAt`) as functions over an
explicit filesystem state, and each node operation as a pure function
returning its result, the new state, and the ordered trace of hook
dispatches and real filesystem calls it performs.
-/

namespace MirrorFS

/-- Byte strings (`[]byte`) are modelled as lists of naturals. -/
abbrev Bytes := List Nat

/-- Model of the error values the Go standard library returns from
filesystem calls (`os.Stat`, `ioutil.ReadDir`, ...): a missing entry,
a permission failure, an already-existing entry, or any other error. -/
inductive GoErr where
  | notExist
  | permission
  | exist
  | other (msg : String)
deriving DecidableEq, Repr

/-- Errors a node operation reports back to the FUSE layer: either the
normalized `syscall.ENOENT`, or an underlying Go error passed through
unmodified. -/
inductive OpErr where
  | ENOENT
  | sys (e : GoErr)
deriving DecidableEq, Repr

/-- The per-entry metadata the real filesystem holds: whether the entry is
a directory (`FileInfo.IsDir`), its byte content (files only; its length
is `FileInfo.Size`), its mode bits (`FileInfo.Mode`), its inode number
(`Stat_t.Ino`), and whether `FileInfo.Sys()` is a `*syscall.Stat_t`
(always true on the target platform; the Go code checks it). -/
structure FileMeta where
  isDir : Bool
  content : Bytes
  mode : Nat
  ino : Nat
  sysOk : Bool
deriving DecidableEq, Repr

/-- First-match association-list lookup by path. -/
def assocFind {α : Type} (k : String) : List (String × α) → Option α
  | [] => none
  | (k2, v) :: rest => if k = k2 then some v else assocFind k rest

/-- The real filesystem state the mirror delegates to: a path-indexed map
of entries, a set of paths whose system calls fail with a given error
(modelling permission problems and other non-missing-entry failures), the
directory listings `ioutil.ReadDir` returns (each child as name plus the
metadata its `FileInfo` carries), and a counter for fresh inode numbers. -/
structure RealFS where
  files : List (String × FileMeta)
  errs : List (String × GoErr)
  listing : List (String × List (String × FileMeta))
  nextIno : Nat
deriving DecidableEq, Repr

/-- Model of `os.Stat`: forced failures first, then the entry map, else
a does-not-exist error. -/
def RealFS.stat (fs : RealFS) (p : String) : Except GoErr FileMeta :=
  match assocFind p fs.errs with
  | some e => .error e
  | none =>
    match assocFind p fs.files with
    | some m => .ok m
    | none => .error .notExist

/-- `syscall.O_WRONLY` on the target platform. -/
def O_WRONLY : Nat := 1

/-- `syscall.O_CREAT` on the target platform (Go `os.O_CREATE`). -/
def O_CREATE : Nat := 64

/-- `syscall.O_TRUNC` on the target platform. -/
def O_TRUNC : Nat := 512

/-- Model of `os.OpenFile(p, flags, mode)`: fails on a forced error; on an
existing entry succeeds (truncating the content when `O_TRUNC` is set); on
a missing entry creates an empty file with the given mode when `O_CREATE`
is set and fails with not-exist otherwise. -/
def RealFS.openFile (fs : RealFS) (p : String) (flags mode : Nat) :
    Except GoErr RealFS :=
  match assocFind p fs.errs with
  | some e => .error e
  | none =>
    match assocFind p fs.files with
    | some m =>
        if flags &&& O_TRUNC ≠ 0 then
          .ok { fs with files := (p, { m with content := [] }) :: fs.files }
        else
          .ok fs
    | none =>
        if flags &&& O_CREATE ≠ 0 then
          .ok { fs with
                files := (p, ⟨false, [], mode, fs.nextIno, true⟩) :: fs.files,
                nextIno := fs.nextIno + 1 }
        else
          .error .notExist

/-- The content of a file after writing `data` at byte offset `off`:
the old content zero-padded out to `off` when shorter, with `data`
overlaid at positions `off` to `off + data.length`. -/
def writeAtBytes (old data : Bytes) (off : Nat) : Bytes :=
  let padded := old ++ List.replicate (off - old.length) 0
  padded.take off ++ data ++ padded.drop (off + data.length)

/-- Model of `os.File.WriteAt(data, off)` on the file open at `p`: fails
on a negative offset, otherwise writes all of `data` at `off` and reports
the number of bytes written. -/
def RealFS.writeAt (fs : RealFS) (p : String) (data : Bytes) (off : Int) :
    Except GoErr (Nat × RealFS) :=
  if off < 0 then .error (.other "negative offset")
  else
    match assocFind p fs.files with
    | some m =>
        .ok (data.length,
          { fs with
            files := (p, { m with content := writeAtBytes m.content data off.toNat })
              :: fs.files })
    | none => .error .notExist

/-- Model of `ioutil.ReadFile`. -/
def RealFS.readFile (fs : RealFS) (p : String) : Except GoErr Bytes :=
  match assocFind p fs.errs with
  | some e => .error e
  | none =>
    match assocFind p fs.files with
    | some m => .ok m.content
    | none => .error .notExist

/-- Model of `ioutil.ReadDir`: the recorded listing of the directory. -/
def RealFS.readDir (fs : RealFS) (p : String) :
    Except GoErr (List (String × FileMeta)) :=
  match assocFind p fs.errs with
  | some e => .error e
  | none =>
    match assocFind p fs.listing with
    | some l => .ok l
    | none => .error .notExist

/-- Model of `os.Remove`. -/
def RealFS.removePath (fs : RealFS) (p : String) : Except GoErr RealFS :=
  match assocFind p fs.errs with
  | some e => .error e
  | none =>
    match assocFind p fs.files with
    | some _ => .ok { fs with files := fs.files.filter (fun q => ¬ q.1 = p) }
    | none => .error .notExist

/-- Model of `os.Mkdir(p, mode)`. -/
def RealFS.mkdirPath (fs : RealFS) (p : String) (mode : Nat) :
    Except GoErr RealFS :=
  match assocFind p fs.errs with
  | some e => .error e
  | none =>
    match assocFind p fs.files with
    | some _ => .error .exist
    | none =>
        .ok { fs with
              files := (p, ⟨true, [], mode, fs.nextIno, true⟩) :: fs.files,
              nextIno := fs.nextIno + 1 }

/-- Model of Go `filepath.Join(p, n)` for a nonempty clean base path and a
clean relative child name, the only shapes the mirror produces. -/
def filepathJoin (p n : String) : String := p ++ "/" ++ n

/-- One system call a node operation performs, as it appears in the
operation's trace. -/
inductive SysCall where
  | stat (path : String)
  | openFile (path : String) (flags mode : Nat)
  | writeAt (path : String) (data : Bytes) (off : Int)
  | close (path : String)
  | readDir (path : String)
  | readFile (path : String)
  | remove (path : String)
  | mkdir (path : String) (mode : Nat)
deriving DecidableEq, Repr

/-- One step in an operation's trace: a `Handle(event, payload)` hook
dispatch — recording the `"error"` entry of its payload map, where `none`
means the payload has no error key and `some e` means the key is present
with value `e` (`some none` being a present, nil error) — or a real
filesystem call. -/
inductive Action where
  | hook (event : String) (errField : Option (Option GoErr))
  | sys (c : SysCall)
deriving DecidableEq, Repr

/-- Whether an action is the dispatch of the named hook event. -/
def Action.isHook (ev : String) : Action → Bool
  | .hook e _ => e = ev
  | .sys _ => false

/-- Whether an action is a real filesystem call. -/
def Action.isSys : Action → Bool
  | .hook _ _ => false
  | .sys _ => true

instance {ε α : Type} [DecidableEq ε] [DecidableEq α] :
    DecidableEq (Except ε α) := fun a b =>
  match a, b with
  | .ok x, .ok y =>
      if h : x = y then .isTrue (by rw [h])
      else .isFalse (fun hh => h (Except.ok.inj hh))
  | .error x, .error y =>
      if h : x = y then .isTrue (by rw [h])
      else .isFalse (fun hh => h (Except.error.inj hh))
  | .ok _, .error _ => .isFalse (fun hh => Except.noConfusion hh)
  | .error _, .ok _ => .isFalse (fun hh => Except.noConfusion hh)

/-- The `fuse.Attr` fields this system touches, plus representative fields
it never touches. -/
structure FuseAttr where
  inode : Nat
  size : Nat
  mode : Nat
  uid : Nat
  gid : Nat
  atime : Nat
  mtime : Nat
deriving DecidableEq, Repr

/-- `fuse.Dirent` type tags: `DT_Unknown` is the Go zero value. -/
inductive DirentType where
  | unknown
  | dir
  | file
deriving DecidableEq, Repr

/-- `fuse.Dirent`. -/
structure Dirent where
  inode : Nat
  typ : DirentType
  name : String
deriving DecidableEq, Repr

/-- The `dir` node: bound to a path (its shared hook registry is modelled
by recording dispatches in the trace). -/
structure DirNode where
  path : String
deriving DecidableEq, Repr

/-- The `file` node: bound to a path. -/
structure FileNode where
  path : String
deriving DecidableEq, Repr

/-- An `fs.Node` returned by `Lookup`, `Create` or `Mkdir`. -/
inductive FsNode where
  | dir (d : DirNode)
  | file (f : FileNode)
deriving DecidableEq, Repr

/-- Output of an `Attr` call: the returned Go error (`none` is nil), the
final value of the `*fuse.Attr` argument, and the trace. -/
structure AttrOut where
  err : Option OpErr
  attr : FuseAttr
  trace : List Action
deriving DecidableEq, Repr

/-- `dir.Attr` (src/unnamed/part_001, also src/mirrorfs/dir.go): dispatch
`"attr:start"`, stat the bound path; on a stat failure or a failed
`Sys()` cast return `syscall.ENOENT` (no end event is dispatched on these
paths); on success set only `Inode` and `Mode` on the attribute and
dispatch `"attr:end"` (whose payload carries no error entry). -/
def dirAttr (d : DirNode) (fs : RealFS) (a : FuseAttr) : AttrOut :=
  match fs.stat d.path with
  | .error _ =>
      { err := some .ENOENT, attr := a,
        trace := [.hook "attr:start" none, .sys (.stat d.path)] }
  | .ok m =>
      if m.sysOk then
        { err := none,
          attr := { a with inode := m.ino, mode := m.mode },
          trace := [.hook "attr:start" none, .sys (.stat d.path),
                    .hook "attr:end" none] }
      else
        { err := some .ENOENT, attr := a,
          trace := [.hook "attr:start" none, .sys (.stat d.path)] }

/-- `file.Attr` (src/mirrorfs/file.go): dispatch `"Attr:start"`, stat the
bound path; on failure dispatch `"Attr:end"` carrying the error and return
`syscall.ENOENT`; on success set `Size` first, then (after the `Sys()`
cast, whose failure returns `ENOENT` with no end event) `Inode` and
`Mode`, and dispatch `"Attr:end"` with a nil error. -/
def fileAttr (f : FileNode) (fs : RealFS) (a : FuseAttr) : AttrOut :=
  match fs.stat f.path with
  | .error e =>
      { err := some .ENOENT, attr := a,
        trace := [.hook "Attr:start" none, .sys (.stat f.path),
                  .hook "Attr:end" (some (some e))] }
  | .ok m =>
      if m.sysOk then
        { err := none,
          attr := { a with size := m.content.length, inode := m.ino, mode := m.mode },
          trace := [.hook "Attr:start" none, .sys (.stat f.path),
                    .hook "Attr:end" (some none)] }
      else
        { err := some .ENOENT, attr := { a with size := m.content.length },
          trace := [.hook "Attr:start" none, .sys (.stat f.path)] }

/-- Output of `dir.Lookup`: the returned node or error, the final value of
`resp.Attr`, and the trace. -/
structure LookupOut where
  res : Except OpErr FsNode
  respAttr : FuseAttr
  trace : List Action
deriving DecidableEq, Repr

/-- `dir.Lookup` (src/unnamed/part_001, also src/mirrorfs/dir.go):
dispatch `"Lookup:start"`, stat the joined path; on failure return
`syscall.ENOENT`; otherwise build a Directory or File node for the joined
path, populate `resp.Attr` via the node's own `Attr` (whose hook
dispatches appear in the trace), propagate an `Attr` failure, and on
success dispatch `"Lookup:end"` with a nil error. -/
def dirLookup (d : DirNode) (name : String) (fs : RealFS) (ra : FuseAttr) :
    LookupOut :=
  match fs.stat (filepathJoin d.path name) with
  | .error _ =>
      { res := .error .ENOENT, respAttr := ra,
        trace := [.hook "Lookup:start" none,
                  .sys (.stat (filepathJoin d.path name))] }
  | .ok m =>
      if m.isDir then
        match dirAttr ⟨filepathJoin d.path name⟩ fs ra with
        | ⟨some e, a2, tr⟩ =>
            { res := .error e, respAttr := a2,
              trace := [.hook "Lookup:start" none,
                        .sys (.stat (filepathJoin d.path name))] ++ tr }
        | ⟨none, a2, tr⟩ =>
            { res := .ok (.dir ⟨filepathJoin d.path name⟩), respAttr := a2,
              trace := [.hook "Lookup:start" none,
                        .sys (.stat (filepathJoin d.path name))] ++ tr
                ++ [.hook "Lookup:end" (some none)] }
      else
        match fileAttr ⟨filepathJoin d.path name⟩ fs ra with
        | ⟨some e, a2, tr⟩ =>
            { res := .error e, respAttr := a2,
              trace := [.hook "Lookup:start" none,
                        .sys (.stat (filepathJoin d.path name))] ++ tr }
        | ⟨none, a2, tr⟩ =>
            { res := .ok (.file ⟨filepathJoin d.path name⟩), respAttr := a2,
              trace := [.hook "Lookup:start" none,
                        .sys (.stat (filepathJoin d.path name))] ++ tr
                ++ [.hook "Lookup:end" (some none)] }

/-- The body of the `ReadDirAll` loop over the listed entries. The Go code
stores `toReturn[i] = newEntry` immediately after setting only `Name`;
the later assignments `newEntry.Inode = stat.Ino` and the `Type`
assignment mutate the local copy, not the stored slice element, so every
stored entry keeps the zero `Inode` and `DT_Unknown` type. `none` models
the early `return nil, syscall.ENOENT` taken when an entry's `Sys()` is
not a `*syscall.Stat_t`. -/
def readDirEntries : List (String × FileMeta) → Option (List Dirent)
  | [] => some []
  | (n, m) :: rest =>
      if m.sysOk then (readDirEntries rest).map (fun l => ⟨0, .unknown, n⟩ :: l)
      else none

/-- Output of `dir.ReadDirAll`: the entries or error, and the trace. -/
structure ReadDirOut where
  res : Except OpErr (List Dirent)
  trace : List Action
deriving DecidableEq, Repr

/-- `dir.ReadDirAll` (src/unnamed/part_001, also src/mirrorfs/dir.go):
dispatch `"ReadDirAll:start"`, list the bound path; on a listing failure
dispatch `"ReadDirAll:end"` carrying the error and return it; run the
entry loop (early `ENOENT` return, with no end event, on a failed `Sys()`
cast); on success dispatch `"ReadDirAll:end"` with a nil error. -/
def dirReadDirAll (d : DirNode) (fs : RealFS) : ReadDirOut :=
  match fs.readDir d.path with
  | .error e =>
      { res := .error (.sys e),
        trace := [.hook "ReadDirAll:start" none, .sys (.readDir d.path),
                  .hook "ReadDirAll:end" (some (some e))] }
  | .ok entries =>
      match readDirEntries entries with
      | none =>
          { res := .error .ENOENT,
            trace := [.hook "ReadDirAll:start" none, .sys (.readDir d.path)] }
      | some l =>
          { res := .ok l,
            trace := [.hook "ReadDirAll:start" none, .sys (.readDir d.path),
                      .hook "ReadDirAll:end" (some none)] }

/-- The attribute changes a `fuse.SetattrRequest` may carry. -/
structure SetattrRequest where
  mode : Option Nat
  size : Option Nat
  uid : Option Nat
  gid : Option Nat
deriving DecidableEq, Repr

/-- Output of a state-bearing operation returning only an error. -/
structure UnitOut where
  err : Option OpErr
  fs : RealFS
  trace : List Action
deriving DecidableEq, Repr

/-- `dir.Setattr` (src/unnamed/part_001, also src/mirrorfs/dir.go):
dispatches `"Setattr:start"` and `"Setattr:end"` and returns nil; the
requested changes are never applied and no filesystem call is made. -/
def dirSetattr (d : DirNode) (req : SetattrRequest) (fs : RealFS) : UnitOut :=
  { err := none, fs := fs,
    trace := [.hook "Setattr:start" none, .hook "Setattr:end" none] }

/-- A `fuse.CreateRequest`. -/
structure CreateRequest where
  name : String
  flags : Nat
  mode : Nat
deriving DecidableEq, Repr

/-- Output of `dir.Create`: the (node, handle) pair or error, the new
filesystem state, and the trace. -/
structure CreateOut where
  res : Except OpErr (FsNode × FsNode)
  fs : RealFS
  trace : List Action
deriving DecidableEq, Repr

/-- `dir.Create` (src/unnamed/part_001): dispatch `"Create:start"`, open
(creating) the file at the path joined from the directory's path and the
request's name with the request's flags and mode, return an open or close
failure raw (no end event); on success immediately close the handle,
dispatch `"Create:end"` with a nil error, and return a File node bound to
the joined path as both the node and the handle. (The model's close never
fails. The older duplicate in src/mirrorfs/dir.go passes the bare
`req.Name` to `os.OpenFile` and `NewFile` instead of the joined path.) -/
def dirCreate (d : DirNode) (req : CreateRequest) (fs : RealFS) : CreateOut :=
  match fs.openFile (filepathJoin d.path req.name) req.flags req.mode with
  | .error e =>
      { res := .error (.sys e), fs := fs,
        trace := [.hook "Create:start" none,
                  .sys (.openFile (filepathJoin d.path req.name)
                          req.flags req.mode)] }
  | .ok fs1 =>
      { res := .ok (.file ⟨filepathJoin d.path req.name⟩,
                    .file ⟨filepathJoin d.path req.name⟩),
        fs := fs1,
        trace := [.hook "Create:start" none,
                  .sys (.openFile (filepathJoin d.path req.name)
                          req.flags req.mode),
                  .sys (.close (filepathJoin d.path req.name)),
                  .hook "Create:end" (some none)] }

/-- `dir.Remove` (src/unnamed/part_001, also src/mirrorfs/dir.go):
dispatch `"Remove:start"`, call `os.Remove(req.Name)` — on the bare
request name, never consulting the directory's own path — dispatch
`"Remove:end"` carrying the observed error, and return that error raw. -/
def dirRemove (d : DirNode) (name : String) (fs : RealFS) : UnitOut :=
  match fs.removePath name with
  | .error e =>
      { err := some (.sys e), fs := fs,
        trace := [.hook "Remove:start" none, .sys (.remove name),
                  .hook "Remove:end" (some (some e))] }
  | .ok fs1 =>
      { err := none, fs := fs1,
        trace := [.hook "Remove:start" none, .sys (.remove name),
                  .hook "Remove:end" (some none)] }

/-- Output of `dir.Mkdir`. -/
structure MkdirOut where
  res : Except OpErr DirNode
  fs : RealFS
  trace : List Action
deriving DecidableEq, Repr

/-- `dir.Mkdir` (src/unnamed/part_001, also src/mirrorfs/dir.go):
dispatch `"Mkdir:start"`, call `os.Mkdir` on the joined path with the
requested mode; on failure dispatch `"Mkdir:end"` whose payload literally
carries `"error": nil` (not the observed error) and return the error raw;
on success dispatch `"Mkdir:end"` with a nil error and return a Directory
node bound to the joined path. -/
def dirMkdir (d : DirNode) (name : String) (mode : Nat) (fs : RealFS) :
    MkdirOut :=
  match fs.mkdirPath (filepathJoin d.path name) mode with
  | .error e =>
      { res := .error (.sys e), fs := fs,
        trace := [.hook "Mkdir:start" none,
                  .sys (.mkdir (filepathJoin d.path name) mode),
                  .hook "Mkdir:end" (some none)] }
  | .ok fs1 =>
      { res := .ok ⟨filepathJoin d.path name⟩, fs := fs1,
        trace := [.hook "Mkdir:start" none,
                  .sys (.mkdir (filepathJoin d.path name) mode),
                  .hook "Mkdir:end" (some none)] }

/-- Output of `file.ReadAll`. -/
structure ReadAllOut where
  res : Except OpErr Bytes
  trace : List Action
deriving DecidableEq, Repr

/-- `file.ReadAll` (src/mirrorfs/file.go): dispatch `"ReadAll:start"`,
read the whole file, dispatch `"ReadAll:end"` carrying the observed error,
return the content and error raw. -/
def fileReadAll (f : FileNode) (fs : RealFS) : ReadAllOut :=
  match fs.readFile f.path with
  | .error e =>
      { res := .error (.sys e),
        trace := [.hook "ReadAll:start" none, .sys (.readFile f.path),
                  .hook "ReadAll:end" (some (some e))] }
  | .ok data =>
      { res := .ok data,
        trace := [.hook "ReadAll:start" none, .sys (.readFile f.path),
                  .hook "ReadAll:end" (some none)] }

/-- A `fuse.WriteRequest`. -/
structure WriteRequest where
  data : Bytes
  offset : Int
  flags : Nat
deriving DecidableEq, Repr

/-- Output of `file.Write`: the returned error, the final `resp.Size`
(zero, its incoming value, on error paths), the new state, and the
trace. -/
structure WriteOut where
  err : Option OpErr
  size : Int
  fs : RealFS
  trace : List Action
deriving DecidableEq, Repr

/-- `file.Write` (src/mirrorfs/file.go): dispatch `"Write:start"`, stat
the bound path for its current mode, open it with the request's flags
OR'd with `O_WRONLY` and that mode, write the request's data at the
request's offset, close the handle, set `resp.Size` to the offset plus
the bytes written, dispatch `"Write:end"` with a nil error and return
nil. Every failure (stat, open, write, close) returns the error raw with
no end event dispatched. (The model's close never fails.) -/
def fileWrite (f : FileNode) (req : WriteRequest) (fs : RealFS) : WriteOut :=
  match fs.stat f.path with
  | .error e =>
      { err := some (.sys e), size := 0, fs := fs,
        trace := [.hook "Write:start" none, .sys (.stat f.path)] }
  | .ok m =>
      match fs.openFile f.path (req.flags ||| O_WRONLY) m.mode with
      | .error e =>
          { err := some (.sys e), size := 0, fs := fs,
            trace := [.hook "Write:start" none, .sys (.stat f.path),
                      .sys (.openFile f.path (req.flags ||| O_WRONLY) m.mode)] }
      | .ok fs1 =>
          match fs1.writeAt f.path req.data req.offset with
          | .error e =>
              { err := some (.sys e), size := 0, fs := fs1,
                trace := [.hook "Write:start" none, .sys (.stat f.path),
                          .sys (.openFile f.path (req.flags ||| O_WRONLY) m.mode),
                          .sys (.writeAt f.path req.data req.offset)] }
          | .ok (n, fs2) =>
              { err := none, size := req.offset + n, fs := fs2,
                trace := [.hook "Write:start" none, .sys (.stat f.path),
                          .sys (.openFile f.path (req.flags ||| O_WRONLY) m.mode),
                          .sys (.writeAt f.path req.data req.offset),
                          .sys (.close f.path),
                          .hook "Write:end" (some none)] }

/-- Hook callbacks are identified abstractly. -/
abbrev HookId := Nat

/-- The `HookHandler`: a map from event name to the registered callback
list, with `"*"` the wildcard key. -/
abbrev HookRegistry := List (String × List HookId)

/-- The callback list `HookHandler.Handle(event, data)` launches: the
name-specific subscribers followed by the wildcard subscribers, or none
at all when both lists are empty (the early return). -/
def HookRegistry.fnsFor (hh : HookRegistry) (event : String) : List HookId :=
  let globalFns := (assocFind "*" hh).getD []
  let fns := (assocFind event hh).getD []
  if fns.isEmpty ∧ globalFns.isEmpty then [] else fns ++ globalFns

/-- The callbacks actually invoked by the goroutines `Handle` launches,
under a schedule `σ`. The Go loop `for _, fn := range fns` (at this
repository's pre-1.22 Go vintage) has a single loop variable `fn` shared
by every iteration; the goroutine body `func(data interface{}) { fn(data);
wg.Done() }` passes `data` by value but captures `fn` by reference, so
goroutine `i` calls whatever `fn` holds when it runs: `launched[σ i]`,
where `σ i` is the loop position reached when goroutine `i` reads `fn`. -/
def invokedUnder (launched : List HookId) (σ : Nat → Nat) : List HookId :=
  (List.range launched.length).map (fun i => launched.getD (σ i) 0)

/-- A schedule is realizable when each goroutine reads the loop variable
no earlier than its own spawn position and no later than the last one. -/
def ValidSchedule (n : Nat) (σ : Nat → Nat) : Prop :=
  ∀ i, i < n → i ≤ σ i ∧ σ i < n

instance (n : Nat) (σ : Nat → Nat) : Decidable (ValidSchedule n σ) :=
  Nat.decidableBallLT n fun _ _ => _

/-! ## Helper lemmas -/

theorem assocFind_cons_self {α : Type} (k : String) (v : α)
    (l : List (String × α)) : assocFind k ((k, v) :: l) = some v := by
  simp [assocFind]

theorem stat_ok_find (fs : RealFS) (p : String) (m : FileMeta)
    (h : fs.stat p = .ok m) :
    assocFind p fs.errs = none ∧ assocFind p fs.files = some m := by
  unfold RealFS.stat at h
  cases herr : assocFind p fs.errs with
  | some e => rw [herr] at h; exact absurd h (by simp)
  | none =>
    rw [herr] at h
    cases hfile : assocFind p fs.files with
    | some m2 => rw [hfile] at h; simp at h; exact ⟨rfl, by rw [h]⟩
    | none => rw [hfile] at h; exact absurd h (by simp)

theorem writeAtBytes_nil_zero (B : Bytes) : writeAtBytes [] B 0 = B := by
  simp [writeAtBytes]

theorem dirAttr_stat_error (d : DirNode) (fs : RealFS) (a : FuseAttr)
    (e : GoErr) (h : fs.stat d.path = .error e) :
    dirAttr d fs a
      = { err := some .ENOENT, attr := a,
          trace := [.hook "attr:start" none, .sys (.stat d.path)] } := by
  unfold dirAttr
  rw [h]

theorem dirAttr_stat_ok (d : DirNode) (fs : RealFS) (a : FuseAttr)
    (m : FileMeta) (h : fs.stat d.path = .ok m) (hs : m.sysOk = true) :
    dirAttr d fs a
      = { err := none, attr := { a with inode := m.ino, mode := m.mode },
          trace := [.hook "attr:start" none, .sys (.stat d.path),
                    .hook "attr:end" none] } := by
  unfold dirAttr
  rw [h]
  simp [hs]

theorem dirAttr_sys_cast_fail (d : DirNode) (fs : RealFS) (a : FuseAttr)
    (m : FileMeta) (h : fs.stat d.path = .ok m) (hs : m.sysOk = false) :
    dirAttr d fs a
      = { err := some .ENOENT, attr := a,
          trace := [.hook "attr:start" none, .sys (.stat d.path)] } := by
  unfold dirAttr
  rw [h]
  simp [hs]

theorem fileAttr_stat_error (f : FileNode) (fs : RealFS) (a : FuseAttr)
    (e : GoErr) (h : fs.stat f.path = .error e) :
    fileAttr f fs a
      = { err := some .ENOENT, attr := a,
          trace := [.hook "Attr:start" none, .sys (.stat f.path),
                    .hook "Attr:end" (some (some e))] } := by
  unfold fileAttr
  rw [h]

theorem dirLookup_stat_error (d : DirNode) (name : String) (fs : RealFS)
    (ra : FuseAttr) (e : GoErr)
    (h : fs.stat (filepathJoin d.path name) = .error e) :
    dirLookup d name fs ra
      = { res := .error .ENOENT, respAttr := ra,
          trace := [.hook "Lookup:start" none,
                    .sys (.stat (filepathJoin d.path name))] } := by
  unfold dirLookup
  rw [h]

theorem openFile_existing (fs : RealFS) (p : String) (flags mode : Nat)
    (m : FileMeta) (herr : assocFind p fs.errs = none)
    (hfile : assocFind p fs.files = some m) :
    fs.openFile p flags mode
      = if flags &&& O_TRUNC ≠ 0 then
          .ok { fs with files := (p, { m with content := [] }) :: fs.files }
        else .ok fs := by
  unfold RealFS.openFile
  rw [herr, hfile]

theorem writeAt_found (fs : RealFS) (p : String) (data : Bytes) (off : Int)
    (m : FileMeta) (hfile : assocFind p fs.files = some m)
    (hoff : ¬ off < 0) :
    fs.writeAt p data off
      = .ok (data.length,
          { fs with
            files := (p, { m with content := writeAtBytes m.content data off.toNat })
              :: fs.files }) := by
  unfold RealFS.writeAt
  rw [if_neg hoff, hfile]

theorem fileWrite_success (f : FileNode) (req : WriteRequest) (fs : RealFS)
    (m : FileMeta) (fs1 fs2 : RealFS) (n : Nat)
    (h1 : fs.stat f.path = .ok m)
    (h2 : fs.openFile f.path (req.flags ||| O_WRONLY) m.mode = .ok fs1)
    (h3 : fs1.writeAt f.path req.data req.offset = .ok (n, fs2)) :
    fileWrite f req fs
      = { err := none, size := req.offset + n, fs := fs2,
          trace := [.hook "Write:start" none, .sys (.stat f.path),
                    .sys (.openFile f.path (req.flags ||| O_WRONLY) m.mode),
                    .sys (.writeAt f.path req.data req.offset),
                    .sys (.close f.path),
                    .hook "Write:end" (some none)] } := by
  unfold fileWrite
  rw [h1]
  dsimp only
  rw [h2]
  dsimp only
  rw [h3]

/-! ## Claim theorems -/

/-- Real filesystem for the ReadDirAll evaluation: `/d` lists exactly one
real child, a regular (non-directory) file named `child` whose platform
stat metadata carries inode 42. -/
def fsReadDirBug : RealFS :=
  { files := [], errs := [],
    listing := [("/d", [("child", ⟨false, [104, 105], 420, 42, true⟩)])],
    nextIno := 0 }

/-- C1: evaluating `dir.ReadDirAll` on a directory whose single real child
is a regular file with inode 42 returns one entry with the right name but
with inode 0 and the `DT_Unknown` type tag, because the Go loop stores
`toReturn[i] = newEntry` before the inode and type assignments, which
mutate only the local copy. The claim's inode and directory/file tagging
therefore do not hold of the returned entries. -/
theorem readDirAll_drops_inode_and_type :
    (dirReadDirAll ⟨"/d"⟩ fsReadDirBug).res
      = .ok [{ inode := 0, typ := .unknown, name := "child" }] := by
  rfl

/-- C2: `dir.Remove` passes the bare request name to `os.Remove`: for
every directory node, the filesystem call it performs targets exactly the
request's name, never consulting the node's own path, and at the concrete
input (directory `/tmp/src/a`, child `b.txt`) the removal targets
`b.txt` while the joined path is the distinct `/tmp/src/a/b.txt`. -/
theorem remove_uses_bare_name :
    (∀ (d : DirNode) (name : String) (fs : RealFS),
        (dirRemove d name fs).trace[1]?
          = some (Action.sys (SysCall.remove name)))
      ∧ (dirRemove ⟨"/tmp/src/a"⟩ "b.txt" ⟨[], [], [], 0⟩).trace
          = [.hook "Remove:start" none, .sys (.remove "b.txt"),
             .hook "Remove:end" (some (some .notExist))]
      ∧ ((filepathJoin "/tmp/src/a" "b.txt") == "b.txt") = false := by
  refine ⟨?_, by rfl, by rfl⟩
  intro d name fs
  unfold dirRemove
  cases h : fs.removePath name <;> rfl

/-- The registry for the dispatch evaluation: two subscribers, identified
as 1 and 2, registered to the event `e` in that order. -/
def loopCaptureRegistry : HookRegistry := [("e", [1, 2])]

/-- The schedule in which both goroutines run only after the launch loop
has finished, so each reads the shared loop variable at its final
position. -/
def loopCaptureSchedule : Nat → Nat := fun _ => 1

/-- C4: with two subscribers registered to one event, `Handle` launches
both callbacks, but under the realizable schedule where both goroutines
run after the loop has finished, both invocations call subscriber 2 and
subscriber 1 is invoked zero times — the shared loop variable `fn` is
captured by reference by the goroutine closure, unlike `data`, which is
passed by value. -/
theorem handle_loop_capture_miscounts :
    ValidSchedule (loopCaptureRegistry.fnsFor "e").length loopCaptureSchedule
      ∧ loopCaptureRegistry.fnsFor "e" = [1, 2]
      ∧ invokedUnder (loopCaptureRegistry.fnsFor "e") loopCaptureSchedule
          = [2, 2]
      ∧ (invokedUnder (loopCaptureRegistry.fnsFor "e")
          loopCaptureSchedule).count 1 = 0 := by
  decide

/-- C9: `dir.Setattr` always returns success, leaves the real filesystem
state exactly as it was, and its trace is precisely the start and end
hook dispatches — in particular it contains no filesystem call. -/
theorem setattr_is_structural_noop :
    ∀ (d : DirNode) (req : SetattrRequest) (fs : RealFS),
      (dirSetattr d req fs).err = none
        ∧ (dirSetattr d req fs).fs = fs
        ∧ (dirSetattr d req fs).trace
            = [.hook "Setattr:start" none, .hook "Setattr:end" none]
        ∧ (dirSetattr d req fs).trace.filter Action.isSys = [] := by
  intro d req fs
  exact ⟨rfl, rfl, rfl, rfl⟩

/-- Real filesystem for the event-ordering counter-evidence: every system
call on `/x` fails with a permission error. -/
def fsStatFails : RealFS :=
  { files := [], errs := [("/x", .permission)], listing := [], nextIno := 0 }

/-- The zero `fuse.Attr`. -/
def attr0 : FuseAttr := ⟨0, 0, 0, 0, 0, 0, 0⟩

/-- C3 counterexample: when the stat of `/x` fails, `dir.Attr` takes an
error path (returning `ENOENT`) on which it dispatches its start event
but returns without ever dispatching `"attr:end"` — the end event is not
dispatched on every error path, contrary to the claim. -/
theorem dir_attr_error_path_skips_end_event :
    (dirAttr ⟨"/x"⟩ fsStatFails attr0).err = some OpErr.ENOENT
      ∧ ((dirAttr ⟨"/x"⟩ fsStatFails attr0).trace.filter
          (Action.isHook "attr:start")).length = 1
      ∧ ((dirAttr ⟨"/x"⟩ fsStatFails attr0).trace.filter
          (Action.isHook "attr:end")).length = 0 := by
  exact ⟨rfl, rfl, rfl⟩

/-- C3 (amended): for the cited operations — `dir.Attr`, `dir.Mkdir` and
`file.Write` — the start event is the first action of the trace, so it
precedes every real filesystem call; `dir.Mkdir` always dispatches its
end event after the mkdir call and before returning, though its payload
carries a nil error even on the failure path; and on the success path
`dir.Attr` and `file.Write` dispatch their end events after all
filesystem calls and before returning, with `file.Write`'s payload
carrying the observed nil error (`dir.Attr`'s end payload carries no
error entry). Error paths of `dir.Attr` and `file.Write` dispatch no end
event. -/
theorem start_first_and_end_on_success :
    (∀ (d : DirNode) (fs : RealFS) (a : FuseAttr),
        (dirAttr d fs a).trace.head? = some (.hook "attr:start" none)
          ∧ ((dirAttr d fs a).err = none →
              (dirAttr d fs a).trace
                = [.hook "attr:start" none, .sys (.stat d.path),
                   .hook "attr:end" none]))
      ∧ (∀ (d : DirNode) (name : String) (mode : Nat) (fs : RealFS),
          (dirMkdir d name mode fs).trace
            = [.hook "Mkdir:start" none,
               .sys (.mkdir (filepathJoin d.path name) mode),
               .hook "Mkdir:end" (some none)])
      ∧ (∀ (f : FileNode) (req : WriteRequest) (fs : RealFS),
          (fileWrite f req fs).trace.head? = some (.hook "Write:start" none)
            ∧ ((fileWrite f req fs).err = none →
                ∃ md, (fileWrite f req fs).trace
                  = [.hook "Write:start" none, .sys (.stat f.path),
                     .sys (.openFile f.path (req.flags ||| O_WRONLY) md),
                     .sys (.writeAt f.path req.data req.offset),
                     .sys (.close f.path), .hook "Write:end" (some none)])) := by
  refine ⟨?_, ?_, ?_⟩
  · intro d fs a
    cases h : fs.stat d.path with
    | error e =>
      rw [dirAttr_stat_error d fs a e h]
      exact ⟨rfl, fun hc => by simp at hc⟩
    | ok m =>
      by_cases hs : m.sysOk = true
      · rw [dirAttr_stat_ok d fs a m h hs]
        exact ⟨rfl, fun _ => rfl⟩
      · have hs2 : m.sysOk = false := by revert hs; cases m.sysOk <;> simp
        rw [dirAttr_sys_cast_fail d fs a m h hs2]
        exact ⟨rfl, fun hc => by simp at hc⟩
  · intro d name mode fs
    cases h : fs.mkdirPath (filepathJoin d.path name) mode <;>
      (unfold dirMkdir; rw [h])
  · intro f req fs
    cases h1 : fs.stat f.path with
    | error e =>
      refine ⟨?_, fun hc => ?_⟩
      · unfold fileWrite; rw [h1]; rfl
      · unfold fileWrite at hc; rw [h1] at hc
        exact Option.noConfusion hc
    | ok m =>
      cases h2 : fs.openFile f.path (req.flags ||| O_WRONLY) m.mode with
      | error e =>
        refine ⟨?_, fun hc => ?_⟩
        · unfold fileWrite; rw [h1]; dsimp only; rw [h2]; rfl
        · unfold fileWrite at hc; rw [h1] at hc; dsimp only at hc
          rw [h2] at hc
          exact Option.noConfusion hc
      | ok fs1 =>
        cases h3 : fs1.writeAt f.path req.data req.offset with
        | error e =>
          refine ⟨?_, fun hc => ?_⟩
          · unfold fileWrite; rw [h1]; dsimp only; rw [h2]; dsimp only
            rw [h3]; rfl
          · unfold fileWrite at hc; rw [h1] at hc; dsimp only at hc
            rw [h2] at hc; dsimp only at hc; rw [h3] at hc
            exact Option.noConfusion hc
        | ok pr =>
          obtain ⟨n, fs2⟩ := pr
          rw [fileWrite_success f req fs m fs1 fs2 n h1 h2 h3]
          exact ⟨rfl, fun _ => ⟨m.mode, rfl⟩⟩

/-- Real filesystem for success-path witnesses: one regular file `/w`
with two bytes of content, mode 420, inode 7. -/
def fsOneFile : RealFS :=
  { files := [("/w", ⟨false, [104, 105], 420, 7, true⟩)], errs := [],
    listing := [], nextIno := 8 }

/-- C3 witness: on the concrete filesystem holding `/w`, the success
paths of `dir.Attr` and `file.Write` produce exactly the start / syscalls
/ end traces the amended claim states, and `dir.Mkdir`'s trace is as
stated. -/
theorem start_first_and_end_on_success_witness :
    (dirAttr ⟨"/w"⟩ fsOneFile attr0).trace
        = [.hook "attr:start" none, .sys (.stat "/w"),
           .hook "attr:end" none]
      ∧ (dirMkdir ⟨"/w"⟩ "sub" 493 fsOneFile).trace
        = [.hook "Mkdir:start" none,
           .sys (.mkdir (filepathJoin "/w" "sub") 493),
           .hook "Mkdir:end" (some none)]
      ∧ (∃ md, (fileWrite ⟨"/w"⟩ ⟨[120], 0, 0⟩ fsOneFile).trace
        = [.hook "Write:start" none, .sys (.stat "/w"),
           .sys (.openFile "/w" ((0 : Nat) ||| O_WRONLY) md),
           .sys (.writeAt "/w" [120] 0),
           .sys (.close "/w"), .hook "Write:end" (some none)]) :=
  ⟨(start_first_and_end_on_success.1 ⟨"/w"⟩ fsOneFile attr0).2 (by decide),
   start_first_and_end_on_success.2.1 ⟨"/w"⟩ "sub" 493 fsOneFile,
   (start_first_and_end_on_success.2.2 ⟨"/w"⟩ ⟨[120], 0, 0⟩ fsOneFile).2
     (by decide)⟩

/-- C5: whenever opening (creating) the file at the joined path with the
request's flags and mode succeeds, `dir.Create` returns success with a
File node bound to the joined path, the identical value as both the node
and the handle; its trace shows the open at the joined path with exactly
the request's flags and mode, immediately followed by the close, and the
filesystem state is the one the open produced. -/
theorem create_opens_joined_path (d : DirNode) (req : CreateRequest)
    (fs fs1 : RealFS)
    (h : fs.openFile (filepathJoin d.path req.name) req.flags req.mode
          = .ok fs1) :
    (dirCreate d req fs).res
        = .ok (.file ⟨filepathJoin d.path req.name⟩,
               .file ⟨filepathJoin d.path req.name⟩)
      ∧ (dirCreate d req fs).fs = fs1
      ∧ (dirCreate d req fs).trace
          = [.hook "Create:start" none,
             .sys (.openFile (filepathJoin d.path req.name)
                     req.flags req.mode),
             .sys (.close (filepathJoin d.path req.name)),
             .hook "Create:end" (some none)] := by
  unfold dirCreate
  rw [h]
  exact ⟨rfl, rfl, rfl⟩

/-- C5 witness: creating `f.txt` under `/tmp/src` on the empty filesystem
with flags `O_CREATE` and mode 420. -/
theorem create_opens_joined_path_witness :
    (dirCreate ⟨"/tmp/src"⟩ ⟨"f.txt", 64, 420⟩ ⟨[], [], [], 0⟩).res
        = .ok (.file ⟨filepathJoin "/tmp/src" "f.txt"⟩,
               .file ⟨filepathJoin "/tmp/src" "f.txt"⟩)
      ∧ (dirCreate ⟨"/tmp/src"⟩ ⟨"f.txt", 64, 420⟩ ⟨[], [], [], 0⟩).fs
        = ⟨[("/tmp/src/f.txt", ⟨false, [], 420, 0, true⟩)], [], [], 1⟩
      ∧ (dirCreate ⟨"/tmp/src"⟩ ⟨"f.txt", 64, 420⟩ ⟨[], [], [], 0⟩).trace
          = [.hook "Create:start" none,
             .sys (.openFile (filepathJoin "/tmp/src" "f.txt") 64 420),
             .sys (.close (filepathJoin "/tmp/src" "f.txt")),
             .hook "Create:end" (some none)] :=
  create_opens_joined_path ⟨"/tmp/src"⟩ ⟨"f.txt", 64, 420⟩ ⟨[], [], [], 0⟩
    ⟨[("/tmp/src/f.txt", ⟨false, [], 420, 0, true⟩)], [], [], 1⟩ (by decide)

/-- C7: whenever the stat of the file succeeds (yielding metadata `m`)
and the requested offset is nonnegative, `file.Write` succeeds, sets the
response size to the requested offset plus the number of bytes written
(all of the payload), and its trace is exactly: the start event, the
stat, the open with the request's flags OR'd with `O_WRONLY` and the
statted mode `m.mode`, the write of the payload at the requested offset,
the close, and the end event with a nil error. -/
theorem write_stats_opens_writes_closes (f : FileNode) (req : WriteRequest)
    (fs : RealFS) (m : FileMeta)
    (hstat : fs.stat f.path = .ok m) (hoff : 0 ≤ req.offset) :
    (fileWrite f req fs).err = none
      ∧ (fileWrite f req fs).size = req.offset + req.data.length
      ∧ (fileWrite f req fs).trace
          = [.hook "Write:start" none, .sys (.stat f.path),
             .sys (.openFile f.path (req.flags ||| O_WRONLY) m.mode),
             .sys (.writeAt f.path req.data req.offset),
             .sys (.close f.path), .hook "Write:end" (some none)] := by
  obtain ⟨herr, hfile⟩ := stat_ok_find fs f.path m hstat
  have hoff2 : ¬ req.offset < 0 := not_lt.mpr hoff
  have hopen :=
    openFile_existing fs f.path (req.flags ||| O_WRONLY) m.mode m herr hfile
  by_cases htr : (req.flags ||| O_WRONLY) &&& O_TRUNC ≠ 0
  · rw [if_pos htr] at hopen
    have hw := writeAt_found
      { fs with files := (f.path, { m with content := [] }) :: fs.files }
      f.path req.data req.offset { m with content := [] }
      (assocFind_cons_self _ _ _) hoff2
    rw [fileWrite_success f req fs m _ _ _ hstat hopen hw]
    exact ⟨rfl, by simp, rfl⟩
  · rw [if_neg htr] at hopen
    have hw := writeAt_found fs f.path req.data req.offset m hfile hoff2
    rw [fileWrite_success f req fs m _ _ _ hstat hopen hw]
    exact ⟨rfl, by simp, rfl⟩

/-- C7 witness: writing one byte at offset 0 to the concrete file `/w`
(mode 420) with request flags 0. -/
theorem write_stats_opens_writes_closes_witness :
    (fileWrite ⟨"/w"⟩ ⟨[120], 0, 0⟩ fsOneFile).err = none
      ∧ (fileWrite ⟨"/w"⟩ ⟨[120], 0, 0⟩ fsOneFile).size
          = (0 : Int) + (1 : Nat)
      ∧ (fileWrite ⟨"/w"⟩ ⟨[120], 0, 0⟩ fsOneFile).trace
          = [.hook "Write:start" none, .sys (.stat "/w"),
             .sys (.openFile "/w" ((0 : Nat) ||| O_WRONLY) 420),
             .sys (.writeAt "/w" [120] 0),
             .sys (.close "/w"), .hook "Write:end" (some none)] :=
  write_stats_opens_writes_closes ⟨"/w"⟩ ⟨[120], 0, 0⟩ fsOneFile
    ⟨false, [104, 105], 420, 7, true⟩ (by decide) (by decide)

/-- Writing bytes `B` at offset 0 to an existing empty file and then
reading it back yields exactly `B`, whatever `Write` request flags are
used. -/
theorem write_then_read_fresh (p : String) (fs : RealFS) (m : FileMeta)
    (B : Bytes) (wflags : Nat)
    (herr : assocFind p fs.errs = none)
    (hfile : assocFind p fs.files = some m)
    (hc : m.content = []) :
    (fileWrite ⟨p⟩ ⟨B, 0, wflags⟩ fs).err = none
      ∧ (fileReadAll ⟨p⟩ (fileWrite ⟨p⟩ ⟨B, 0, wflags⟩ fs).fs).res = .ok B := by
  have hstat : fs.stat p = .ok m := by
    unfold RealFS.stat
    rw [herr, hfile]
  have hoff : ¬ (0 : Int) < 0 := by decide
  have hopen := openFile_existing fs p (wflags ||| O_WRONLY) m.mode m herr hfile
  by_cases htr : (wflags ||| O_WRONLY) &&& O_TRUNC ≠ 0
  · rw [if_pos htr] at hopen
    have hw := writeAt_found
      { fs with files := (p, { m with content := [] }) :: fs.files }
      p B 0 { m with content := [] } (assocFind_cons_self _ _ _) hoff
    have hWr := fileWrite_success ⟨p⟩ ⟨B, 0, wflags⟩ fs m _ _ _ hstat hopen hw
    rw [hWr]
    refine ⟨rfl, ?_⟩
    simp [fileReadAll, RealFS.readFile, herr, assocFind_cons_self,
      writeAtBytes_nil_zero]
  · rw [if_neg htr] at hopen
    have hw := writeAt_found fs p B 0 m hfile hoff
    have hWr := fileWrite_success ⟨p⟩ ⟨B, 0, wflags⟩ fs m _ _ _ hstat hopen hw
    rw [hWr]
    refine ⟨rfl, ?_⟩
    simp [fileReadAll, RealFS.readFile, herr, assocFind_cons_self, hc,
      writeAtBytes_nil_zero]

/-- C6: for any file node obtained from `dir.Create` — creating a fresh
file (no entry and no forced error at the joined path, creation flag set)
— writing bytes `B` at offset 0 and then reading the file back yields
exactly `B`. -/
theorem create_write_read_round_trip (d : DirNode) (name : String)
    (cflags cmode wflags : Nat) (B : Bytes) (fs : RealFS)
    (hnew : assocFind (filepathJoin d.path name) fs.files = none)
    (herr : assocFind (filepathJoin d.path name) fs.errs = none)
    (hcr : cflags &&& O_CREATE ≠ 0) :
    ∃ F : FileNode,
      (dirCreate d ⟨name, cflags, cmode⟩ fs).res = .ok (.file F, .file F)
        ∧ (fileWrite F ⟨B, 0, wflags⟩
            (dirCreate d ⟨name, cflags, cmode⟩ fs).fs).err = none
        ∧ (fileReadAll F (fileWrite F ⟨B, 0, wflags⟩
            (dirCreate d ⟨name, cflags, cmode⟩ fs).fs).fs).res = .ok B := by
  have hopen : fs.openFile (filepathJoin d.path name) cflags cmode
      = .ok { fs with
              files := (filepathJoin d.path name,
                ⟨false, [], cmode, fs.nextIno, true⟩) :: fs.files,
              nextIno := fs.nextIno + 1 } := by
    unfold RealFS.openFile
    rw [herr, hnew, if_pos hcr]
  have hC : dirCreate d ⟨name, cflags, cmode⟩ fs
      = { res := .ok (.file ⟨filepathJoin d.path name⟩,
                      .file ⟨filepathJoin d.path name⟩),
          fs := { fs with
                  files := (filepathJoin d.path name,
                    ⟨false, [], cmode, fs.nextIno, true⟩) :: fs.files,
                  nextIno := fs.nextIno + 1 },
          trace := [.hook "Create:start" none,
                    .sys (.openFile (filepathJoin d.path name) cflags cmode),
                    .sys (.close (filepathJoin d.path name)),
                    .hook "Create:end" (some none)] } := by
    unfold dirCreate
    dsimp only
    rw [hopen]
  have hrt := write_then_read_fresh (filepathJoin d.path name)
    { fs with
      files := (filepathJoin d.path name,
        ⟨false, [], cmode, fs.nextIno, true⟩) :: fs.files,
      nextIno := fs.nextIno + 1 }
    ⟨false, [], cmode, fs.nextIno, true⟩ B wflags herr
    (assocFind_cons_self _ _ _) rfl
  refine ⟨⟨filepathJoin d.path name⟩, ?_, ?_, ?_⟩
  · rw [hC]
  · rw [hC]
    exact hrt.1
  · rw [hC]
    exact hrt.2

/-- C6 witness: creating `f.txt` under `/tmp/src` on the empty real
filesystem with flags 64 (`O_CREATE`) and mode 420, writing the single
byte 120 at offset 0, then reading it back. -/
theorem create_write_read_round_trip_witness :
    ∃ F : FileNode,
      (dirCreate ⟨"/tmp/src"⟩ ⟨"f.txt", 64, 420⟩ ⟨[], [], [], 0⟩).res
          = .ok (.file F, .file F)
        ∧ (fileWrite F ⟨[120], 0, 0⟩
            (dirCreate ⟨"/tmp/src"⟩ ⟨"f.txt", 64, 420⟩ ⟨[], [], [], 0⟩).fs).err
          = none
        ∧ (fileReadAll F (fileWrite F ⟨[120], 0, 0⟩
            (dirCreate ⟨"/tmp/src"⟩ ⟨"f.txt", 64, 420⟩ ⟨[], [], [], 0⟩).fs).fs).res
          = .ok [120] :=
  create_write_read_round_trip ⟨"/tmp/src"⟩ "f.txt" 64 420 0 [120]
    ⟨[], [], [], 0⟩ (by decide) (by decide) (by decide)

/-- C8: whenever the stat of the bound path fails — with any underlying
error — `dir.Attr` and `file.Attr` return `ENOENT`, and whenever the stat
of the joined child path fails, `dir.Lookup` returns `ENOENT`: never any
other error kind. -/
theorem stat_failures_collapse_to_enoent :
    (∀ (p : String) (fs : RealFS) (a : FuseAttr) (e : GoErr),
        fs.stat p = .error e → (dirAttr ⟨p⟩ fs a).err = some OpErr.ENOENT)
      ∧ (∀ (p : String) (fs : RealFS) (a : FuseAttr) (e : GoErr),
          fs.stat p = .error e → (fileAttr ⟨p⟩ fs a).err = some OpErr.ENOENT)
      ∧ (∀ (d : DirNode) (name : String) (fs : RealFS) (ra : FuseAttr)
          (e : GoErr),
          fs.stat (filepathJoin d.path name) = .error e →
            (dirLookup d name fs ra).res = .error OpErr.ENOENT) := by
  refine ⟨?_, ?_, ?_⟩
  · intro p fs a e h
    rw [dirAttr_stat_error ⟨p⟩ fs a e h]
  · intro p fs a e h
    rw [fileAttr_stat_error ⟨p⟩ fs a e h]
  · intro d name fs ra e h
    rw [dirLookup_stat_error d name fs ra e h]

/-- Real filesystem on which `/p` and `/tmp/p` fail with a permission
error — not a missing-entry error. -/
def fsTwoErrs : RealFS :=
  { files := [], errs := [("/p", .permission), ("/tmp/p", .permission)],
    listing := [], nextIno := 0 }

/-- C8 witness: on a filesystem whose stat failures are permission
errors, `dir.Attr`, `file.Attr` and `dir.Lookup` all still report
`ENOENT`. -/
theorem stat_failures_collapse_to_enoent_witness :
    (dirAttr ⟨"/p"⟩ fsTwoErrs attr0).err = some OpErr.ENOENT
      ∧ (fileAttr ⟨"/p"⟩ fsTwoErrs attr0).err = some OpErr.ENOENT
      ∧ (dirLookup ⟨"/tmp"⟩ "p" fsTwoErrs attr0).res = .error OpErr.ENOENT :=
  ⟨stat_failures_collapse_to_enoent.1 "/p" fsTwoErrs attr0 .permission
      (by decide),
   stat_failures_collapse_to_enoent.2.1 "/p" fsTwoErrs attr0 .permission
      (by decide),
   stat_failures_collapse_to_enoent.2.2 ⟨"/tmp"⟩ "p" fsTwoErrs attr0
      .permission (by decide)⟩

/-- C10: whenever the stat of a directory node's path succeeds (and the
`Sys()` cast does too), `dir.Attr` writes only the `Inode` and `Mode`
fields of the supplied attribute structure, leaving `Size`, `Uid`, `Gid`,
`Atime` and `Mtime` at their incoming values. -/
theorem dir_attr_touches_only_inode_and_mode (d : DirNode) (fs : RealFS)
    (a : FuseAttr) (m : FileMeta)
    (hstat : fs.stat d.path = .ok m) (hs : m.sysOk = true) :
    (dirAttr d fs a).attr = { a with inode := m.ino, mode := m.mode }
      ∧ (dirAttr d fs a).attr.size = a.size
      ∧ (dirAttr d fs a).attr.uid = a.uid
      ∧ (dirAttr d fs a).attr.gid = a.gid
      ∧ (dirAttr d fs a).attr.atime = a.atime
      ∧ (dirAttr d fs a).attr.mtime = a.mtime := by
  rw [dirAttr_stat_ok d fs a m hstat hs]
  exact ⟨rfl, rfl, rfl, rfl, rfl, rfl⟩

/-- Real filesystem with one directory `/d2` of mode 493 and inode 9. -/
def fsOneDir : RealFS :=
  { files := [("/d2", ⟨true, [], 493, 9, true⟩)], errs := [],
    listing := [], nextIno := 10 }

/-- C10 witness: `dir.Attr` on `/d2`, starting from an attribute whose
size, owner and time fields are nonzero, updates only inode and mode. -/
theorem dir_attr_touches_only_inode_and_mode_witness :
    (dirAttr ⟨"/d2"⟩ fsOneDir ⟨0, 77, 0, 5, 6, 11, 12⟩).attr
        = { (⟨0, 77, 0, 5, 6, 11, 12⟩ : FuseAttr) with inode := 9, mode := 493 }
      ∧ (dirAttr ⟨"/d2"⟩ fsOneDir ⟨0, 77, 0, 5, 6, 11, 12⟩).attr.size = 77
      ∧ (dirAttr ⟨"/d2"⟩ fsOneDir ⟨0, 77, 0, 5, 6, 11, 12⟩).attr.uid = 5
      ∧ (dirAttr ⟨"/d2"⟩ fsOneDir ⟨0, 77, 0, 5, 6, 11, 12⟩).attr.gid = 6
      ∧ (dirAttr ⟨"/d2"⟩ fsOneDir ⟨0, 77, 0, 5, 6, 11, 12⟩).attr.atime = 11
      ∧ (dirAttr ⟨"/d2"⟩ fsOneDir ⟨0, 77, 0, 5, 6, 11, 12⟩).attr.mtime = 12 :=
  dir_attr_touches_only_inode_and_mode ⟨"/d2"⟩ fsOneDir
    ⟨0, 77, 0, 5, 6, 11, 12⟩ ⟨true, [], 493, 9, true⟩ (by decide) rfl

end MirrorFS
